import Mathlib

/-!
# The Raft dispatch client of `pkg/atomix/raft/client.go`

A shallow embedding of `Client` and its methods `IsLeader`, `Leader`, `Write`
and `Read`.

The client only talks to collaborators that live outside the file: the
consensus engine (`raft.Raft`), the stream manager, the protobuf encoder, the
host resolver of package `net`, the clock and the state machine.  Their answers
are the fields of an environment `Env`; every call the client makes on one of
them is recorded, in program order, in a trace of `Event`s.  A method of the
client is a function from the environment to its Go result together with the
trace of the calls it made.
-/

namespace Raft

/-! ## Values -/

/-- A Go `error` value other than nil: its dynamic type and its message. -/
structure GoError where
  kind : String
  msg : String
  deriving DecidableEq, Repr

/-- A byte slice. -/
abbrev Bytes := List UInt8

/-- The identifier the stream manager hands out on registration. -/
abbrev StreamID := Nat

/-- A `streams.WriteStream`, known by its identity only. -/
structure WriteStream where
  handle : Nat
  deriving DecidableEq, Repr

/-- The `Entry` message built by `Write`: payload, stream identifier, timestamp. -/
structure Entry where
  Value : Bytes
  StreamID : StreamID
  Timestamp : Int
  deriving DecidableEq, Repr

/-- An `interface{}` value as handed back by `ApplyFuture.Response()`:
nil, an `error`, or a value of any other dynamic type. -/
inductive Response where
  | nil
  | error (e : GoError)
  | other (v : String)
  deriving DecidableEq, Repr

/-- A `raft.ApplyFuture` once resolved: what `Error()` and `Response()` report.
A resolved future reports the same error on every call of `Error()`, so the two
calls of lines 91 and 93 read the same field. -/
structure ApplyFuture where
  err : Option GoError
  response : Response
  deriving DecidableEq, Repr

/-- The calls a `streams.WriteStream` accepts: delivering a value, delivering a
failure, and closing. -/
inductive StreamOp where
  | value (v : Bytes)
  | error (e : GoError)
  | close
  deriving DecidableEq, Repr

/-- One call on a collaborator. -/
inductive Event where
  | raftLeader
  | splitHostPort (hostport : String)
  | lookupHost (host : String)
  | addStream (stream : WriteStream)
  | timeNow
  | marshal (entry : Entry)
  | raftApply (cmd : Bytes) (timeout : Int)
  | futureError
  | futureResponse
  | streamCall (stream : WriteStream) (op : StreamOp)
  | stateQuery (input : Bytes) (stream : WriteStream)
  deriving DecidableEq, Repr

/-- How a Go function of result type `error` ends: it returns nil or an error,
or it panics. -/
inductive Outcome where
  | ret (err : Option GoError)
  | panic
  deriving DecidableEq, Repr

/-! ## The collaborators -/

/-- The answers of the collaborators.  A Go call returning `(v, err)` answers
with the pair of `v` and the error, `none` standing for a nil error. -/
structure Env where
  /-- The result of `raft.Raft.Leader()`; the empty string when no leader is known. -/
  leader : String
  /-- The function `net.SplitHostPort`: host, port, error. -/
  splitHostPort : String → String × String × Option GoError
  /-- The function `net.LookupHost`: addresses, error. -/
  lookupHost : String → List String × Option GoError
  /-- The order in which a `range` over the `ports` map yields its entries. -/
  rangeOrder : List (String × Int) → List (String × Int)
  /-- The method `streamManager.addStream`: the new identifier and the stream to use. -/
  addStream : WriteStream → StreamID × WriteStream
  /-- The result of `time.Now()`. -/
  now : Int
  /-- The function `proto.Marshal` on an `Entry`: bytes, error. -/
  marshal : Entry → Bytes × Option GoError
  /-- The method `raft.Raft.Apply`, with the future it returns already resolved. -/
  apply : Bytes → Int → ApplyFuture
  /-- The method `StateMachine.Query`. -/
  query : Bytes → WriteStream → Option GoError

/-- A computation that calls collaborators: its value and the trace of its calls. -/
structure Eff (α : Type) where
  val : α
  trace : List Event

/-- A computation that makes no call. -/
def Eff.pure {α : Type} (a : α) : Eff α := ⟨a, []⟩

/-- Sequencing: the calls of the first computation come first. -/
def Eff.bind {α β : Type} (m : Eff α) (f : α → Eff β) : Eff β :=
  ⟨(f m.val).val, m.trace ++ (f m.val).trace⟩

instance : Monad Eff where
  pure := Eff.pure
  bind := Eff.bind

/-- One call on a collaborator, answered by `a`. -/
def call {α : Type} (e : Event) (a : α) : Eff α := ⟨a, [e]⟩

/-! ## The client -/

/-- One second as a `time.Duration`, in nanoseconds. -/
def timeSecond : Int := 1000000000

/-- Line 27: `const clientTimeout = 15 * time.Second`. -/
def clientTimeout : Int := 15 * timeSecond

/-- The `Client` struct: its own transport address and the table of client
ports by host.  The fields `raft`, `state` and `streams` are the collaborators
of `Env`. -/
structure Client where
  address : String
  ports : List (String × Int)

/-- The format `fmt.Sprintf("%s:%d", host, port)`. -/
def sprintfHostPort (host : String) (port : Int) : String :=
  host ++ ":" ++ toString port

/-- Lines 53-55, `Client.IsLeader`. -/
def Client.IsLeader (c : Client) (env : Env) : Eff Bool := do
  let leader ← call .raftLeader env.leader
  return decide (leader = c.address)

/-- Lines 70-76: the loop of `Client.Leader` over the entries still to visit,
and the final `return ""`. -/
def leaderScan (env : Env) (leaderIP : String) : List (String × Int) → Eff String
  | [] => return ""
  | (host, port) :: rest => do
    let (addrs, err) ← call (.lookupHost host) (env.lookupHost host)
    if err = none ∧ addrs.length > 0 ∧ addrs[0]? = some leaderIP then
      return sprintfHostPort host port
    else
      leaderScan env leaderIP rest

/-- Lines 57-77, `Client.Leader`. -/
def Client.Leader (c : Client) (env : Env) : Eff String := do
  let leader ← call .raftLeader env.leader
  if leader = "" then
    return ""
  else
    let (leaderIP, _, err) ← call (.splitHostPort leader) (env.splitHostPort leader)
    if err ≠ none then
      return ""
    else
      leaderScan env leaderIP (env.rangeOrder c.ports)

/-- Lines 79-100, `Client.Write`. -/
def Client.Write (_c : Client) (env : Env) (input : Bytes) (stream : WriteStream) :
    Eff Outcome := do
  let (streamID, stream) ← call (.addStream stream) (env.addStream stream)
  let now ← call .timeNow env.now
  let entry : Entry := { Value := input, StreamID := streamID, Timestamp := now }
  let (bytes, err) ← call (.marshal entry) (env.marshal entry)
  match err with
  | some err => return .ret (some err)
  | none =>
    let future ← call (.raftApply bytes clientTimeout) (env.apply bytes clientTimeout)
    let ferr ← call .futureError future.err
    if ferr ≠ none then
      call (.streamCall stream .close) ()
      let ferr ← call .futureError future.err
      return .ret ferr
    else
      let response ← call .futureResponse future.response
      match response with
      | .nil => return .ret none
      | .error e => return .ret (some e)
      | .other _ => return .panic

/-- Lines 102-104, `Client.Read`. -/
def Client.Read (_c : Client) (env : Env) (input : Bytes) (stream : WriteStream) :
    Eff Outcome := do
  let r ← call (.stateQuery input stream) (env.query input stream)
  return .ret r

/-! ## Reading a trace -/

/-- The event is a registration with the stream manager. -/
def Event.isAddStream : Event → Bool
  | .addStream _ => true
  | _ => false

/-- The event is an encoding of an entry. -/
def Event.isMarshal : Event → Bool
  | .marshal _ => true
  | _ => false

/-- The event is a submission to the consensus engine. -/
def Event.isApply : Event → Bool
  | .raftApply _ _ => true
  | _ => false

/-- The table host `host` resolves, without error, to a non-empty list of
addresses whose first one is `ip`. -/
def ResolvesFirstTo (env : Env) (host ip : String) : Prop :=
  (env.lookupHost host).2 = none ∧ ∃ rest, (env.lookupHost host).1 = ip :: rest

/-- The table host `host` resolves, without error, to a list of addresses one
of which, at any position, is `ip`. -/
def ResolvesAnyTo (env : Env) (host ip : String) : Prop :=
  (env.lookupHost host).2 = none ∧ ip ∈ (env.lookupHost host).1

/-! ## Sample collaborators -/

/-- The resolver error for an unknown host. -/
def errNoSuchHost : GoError := ⟨"*net.DNSError", "no such host"⟩

/-- The error of `net.SplitHostPort` on an address without a port. -/
def errMissingPort : GoError := ⟨"*net.AddrError", "missing port in address"⟩

/-- The error of a submission that timed out. -/
def errEnqueueTimeout : GoError := ⟨"*errors.errorString", "timed out enqueuing operation"⟩

/-- An encoder error. -/
def errTooLarge : GoError := ⟨"*errors.errorString", "proto: message too large"⟩

/-- A three-node view: the leader is `10.0.0.1:5678`, host `nodeA` resolves to
`10.0.0.1`, no other host resolves, every submission commits and applies. -/
def sampleEnv : Env where
  leader := "10.0.0.1:5678"
  splitHostPort := fun s =>
    if s = "10.0.0.1:5678" then ("10.0.0.1", "5678", none) else ("", "", some errMissingPort)
  lookupHost := fun h =>
    if h = "nodeA" then (["10.0.0.1"], none) else ([], some errNoSuchHost)
  rangeOrder := id
  addStream := fun s => (1, ⟨s.handle + 100⟩)
  now := 1700000000
  marshal := fun e => (e.Value, none)
  apply := fun _ _ => ⟨none, .nil⟩
  query := fun _ _ => none

/-- As `sampleEnv`, but `nodeA` has two addresses and the leader's is the second. -/
def envSecondAddress : Env :=
  { sampleEnv with lookupHost := fun h =>
      if h = "nodeA" then (["10.0.0.2", "10.0.0.1"], none) else ([], some errNoSuchHost) }

/-- As `sampleEnv`, but the map is ranged over in reverse. -/
def envReversed : Env := { sampleEnv with rangeOrder := List.reverse }

/-- As `sampleEnv`, but no leader is known. -/
def envElection : Env := { sampleEnv with leader := "" }

/-- As `sampleEnv`, but every submission times out. -/
def envSubmitFails : Env :=
  { sampleEnv with apply := fun _ _ => ⟨some errEnqueueTimeout, .nil⟩ }

/-- As `sampleEnv`, but the state machine answers every committed entry with
the error `errEnqueueTimeout`. -/
def envApplyFails : Env :=
  { sampleEnv with apply := fun _ _ => ⟨none, .error errEnqueueTimeout⟩ }

/-- As `sampleEnv`, but no entry can be encoded. -/
def envEncodeFails : Env := { sampleEnv with marshal := fun _ => ([], some errTooLarge) }

/-- A client whose table is the single entry `nodeA ↦ 8080`. -/
def sampleClient : Client := ⟨"10.0.0.3:5678", [("nodeA", 8080)]⟩

/-- A client with the table `nodeA ↦ 8080`, `nodeB ↦ 9090`. -/
def twoNodeClient : Client := ⟨"10.0.0.3:5678", [("nodeA", 8080), ("nodeB", 9090)]⟩

/-! ## The runs of `Write` -/

/-- The run of `Write` when encoding fails. -/
theorem Write_run_encode_error (c : Client) (env : Env) (input : Bytes)
    (stream stream' : WriteStream) (sid : StreamID) (bytes : Bytes) (e : GoError)
    (hreg : env.addStream stream = (sid, stream'))
    (henc : env.marshal ⟨input, sid, env.now⟩ = (bytes, some e)) :
    c.Write env input stream =
      ⟨.ret (some e), [.addStream stream, .timeNow, .marshal ⟨input, sid, env.now⟩]⟩ := by
  simp [Client.Write, bind, Eff.bind, call, pure, Eff.pure, hreg, henc]

/-- The run of `Write` when the submission fails. -/
theorem Write_run_submit_error (c : Client) (env : Env) (input : Bytes)
    (stream stream' : WriteStream) (sid : StreamID) (bytes : Bytes) (e : GoError)
    (hreg : env.addStream stream = (sid, stream'))
    (henc : env.marshal ⟨input, sid, env.now⟩ = (bytes, none))
    (hsub : (env.apply bytes clientTimeout).err = some e) :
    c.Write env input stream =
      ⟨.ret (some e), [.addStream stream, .timeNow, .marshal ⟨input, sid, env.now⟩,
        .raftApply bytes clientTimeout, .futureError, .streamCall stream' .close,
        .futureError]⟩ := by
  simp [Client.Write, bind, Eff.bind, call, pure, Eff.pure, hreg, henc, hsub]

/-- The run of `Write` when the submission succeeds. -/
theorem Write_run_committed (c : Client) (env : Env) (input : Bytes)
    (stream stream' : WriteStream) (sid : StreamID) (bytes : Bytes)
    (hreg : env.addStream stream = (sid, stream'))
    (henc : env.marshal ⟨input, sid, env.now⟩ = (bytes, none))
    (hsub : (env.apply bytes clientTimeout).err = none) :
    c.Write env input stream =
      ⟨match (env.apply bytes clientTimeout).response with
        | .nil => .ret none
        | .error e => .ret (some e)
        | .other _ => .panic,
       [.addStream stream, .timeNow, .marshal ⟨input, sid, env.now⟩,
        .raftApply bytes clientTimeout, .futureError, .futureResponse]⟩ := by
  simp [Client.Write, bind, Eff.bind, call, pure, Eff.pure, hreg, henc, hsub]
  cases (env.apply bytes clientTimeout).response <;> simp

/-! ## The scan of `Leader` -/

/-- The formatted address always holds the colon, so it is never empty. -/
theorem sprintfHostPort_ne_empty (host : String) (port : Int) :
    sprintfHostPort host port ≠ "" := by
  intro h
  have hlen := congrArg String.length h
  simp only [sprintfHostPort, String.length_append] at hlen
  have hcolon : ":".length = 1 := rfl
  have hzero : "".length = 0 := rfl
  rw [hcolon, hzero] at hlen
  omega

/-- The test of line 72 reads as `ResolvesFirstTo`. -/
theorem scanCond_iff (env : Env) (host ip : String) :
    ((env.lookupHost host).2 = none ∧ (env.lookupHost host).1.length > 0 ∧
      (env.lookupHost host).1[0]? = some ip) ↔ ResolvesFirstTo env host ip := by
  unfold ResolvesFirstTo
  cases hl : (env.lookupHost host).1 with
  | nil => simp
  | cons a as => simp

/-- An entry that passes the test ends the scan. -/
theorem leaderScan_hit (env : Env) (ip host : String) (port : Int)
    (rest : List (String × Int)) (h : ResolvesFirstTo env host ip) :
    (leaderScan env ip ((host, port) :: rest)).val = sprintfHostPort host port := by
  have h' := (scanCond_iff env host ip).2 h
  simp [leaderScan, bind, Eff.bind, call, pure, Eff.pure, h']

/-- An entry that fails the test is passed over. -/
theorem leaderScan_miss (env : Env) (ip host : String) (port : Int)
    (rest : List (String × Int)) (h : ¬ ResolvesFirstTo env host ip) :
    (leaderScan env ip ((host, port) :: rest)).val = (leaderScan env ip rest).val := by
  have h' := mt (scanCond_iff env host ip).1 h
  simp [leaderScan, bind, Eff.bind, call, pure, Eff.pure, h']

/-- The scan answers the empty string exactly when no entry passes the test. -/
theorem leaderScan_empty_iff (env : Env) (ip : String) (l : List (String × Int)) :
    (leaderScan env ip l).val = "" ↔ ∀ x ∈ l, ¬ ResolvesFirstTo env x.1 ip := by
  induction l with
  | nil => simp [leaderScan, pure, Eff.pure]
  | cons x rest ih =>
    obtain ⟨host, port⟩ := x
    by_cases h : ResolvesFirstTo env host ip
    · rw [leaderScan_hit env ip host port rest h]
      simp [sprintfHostPort_ne_empty, h]
    · rw [leaderScan_miss env ip host port rest h, ih]
      simp [h]

/-- The scan answers with the first entry, in the order visited, that passes the test. -/
theorem leaderScan_first_match (env : Env) (ip : String) (pre post : List (String × Int))
    (host : String) (port : Int)
    (hpre : ∀ x ∈ pre, ¬ ResolvesFirstTo env x.1 ip) (hm : ResolvesFirstTo env host ip) :
    (leaderScan env ip (pre ++ (host, port) :: post)).val = sprintfHostPort host port := by
  induction pre with
  | nil => exact leaderScan_hit env ip host port post hm
  | cons x rest ih =>
    obtain ⟨h0, p0⟩ := x
    have hx : ¬ ResolvesFirstTo env h0 ip := hpre (h0, p0) (List.mem_cons_self _ _)
    rw [List.cons_append, leaderScan_miss env ip h0 p0 _ hx]
    exact ih (fun y hy => hpre y (List.mem_cons_of_mem _ hy))

/-- A non-empty answer of the scan is the address of an entry that passes the test. -/
theorem leaderScan_result (env : Env) (ip : String) (l : List (String × Int))
    (hne : (leaderScan env ip l).val ≠ "") :
    ∃ host port, (host, port) ∈ l ∧ ResolvesFirstTo env host ip ∧
      (leaderScan env ip l).val = sprintfHostPort host port := by
  induction l with
  | nil => simp [leaderScan, pure, Eff.pure] at hne
  | cons x rest ih =>
    obtain ⟨host, port⟩ := x
    by_cases h : ResolvesFirstTo env host ip
    · exact ⟨host, port, List.mem_cons_self _ _, h, leaderScan_hit env ip host port rest h⟩
    · rw [leaderScan_miss env ip host port rest h] at hne ⊢
      obtain ⟨h1, p1, hmem, hres, heq⟩ := ih hne
      exact ⟨h1, p1, List.mem_cons_of_mem _ hmem, hres, heq⟩

/-- With a leader whose address splits, `Leader` answers what the scan answers. -/
theorem Leader_val_of_split (c : Client) (env : Env) (ip port : String)
    (hl : env.leader ≠ "") (hs : env.splitHostPort env.leader = (ip, port, none)) :
    (c.Leader env).val = (leaderScan env ip (env.rangeOrder c.ports)).val := by
  simp [Client.Leader, bind, Eff.bind, call, pure, Eff.pure, hl, hs]

/-- The run of `Leader` when no leader is known. -/
theorem Leader_run_no_leader (c : Client) (env : Env) (hl : env.leader = "") :
    c.Leader env = ⟨"", [.raftLeader]⟩ := by
  simp [Client.Leader, bind, Eff.bind, call, pure, Eff.pure, hl]

/-! ## The write path -/

/-- Claim C1: when the submission made by `Write` fails with error `e`, `Write`
returns exactly `e`, calls `Close` exactly once on the stream that registration
returned, makes no other call on any stream (so delivers no value), and never
asks the future for its response. -/
theorem Write_submission_failure (c : Client) (env : Env) (input : Bytes)
    (stream stream' : WriteStream) (sid : StreamID) (bytes : Bytes) (e : GoError)
    (hreg : env.addStream stream = (sid, stream'))
    (henc : env.marshal ⟨input, sid, env.now⟩ = (bytes, none))
    (hsub : (env.apply bytes clientTimeout).err = some e) :
    (c.Write env input stream).val = .ret (some e) ∧
    (c.Write env input stream).trace.count (.streamCall stream' .close) = 1 ∧
    (∀ s op, Event.streamCall s op ∈ (c.Write env input stream).trace →
      s = stream' ∧ op = .close) ∧
    Event.futureResponse ∉ (c.Write env input stream).trace := by
  rw [Write_run_submit_error c env input stream stream' sid bytes e hreg henc hsub]
  refine ⟨rfl, ?_, ?_, ?_⟩
  · simp [List.count_cons]
  · intro s op h
    simpa using h
  · simp

/-- The theorem of claim C1 on a submission that times out. -/
theorem Write_submission_failure_witness :
    envSubmitFails.addStream ⟨7⟩ = (1, ⟨107⟩) ∧
    envSubmitFails.marshal ⟨[1, 2], 1, envSubmitFails.now⟩ = ([1, 2], none) ∧
    (envSubmitFails.apply [1, 2] clientTimeout).err = some errEnqueueTimeout ∧
    (sampleClient.Write envSubmitFails [1, 2] ⟨7⟩).val = .ret (some errEnqueueTimeout) ∧
    (sampleClient.Write envSubmitFails [1, 2] ⟨7⟩).trace.count
      (.streamCall ⟨107⟩ .close) = 1 ∧
    (∀ s op, Event.streamCall s op ∈ (sampleClient.Write envSubmitFails [1, 2] ⟨7⟩).trace →
      s = ⟨107⟩ ∧ op = .close) ∧
    Event.futureResponse ∉ (sampleClient.Write envSubmitFails [1, 2] ⟨7⟩).trace :=
  ⟨rfl, rfl, rfl,
    Write_submission_failure sampleClient envSubmitFails [1, 2] ⟨7⟩ ⟨107⟩ 1 [1, 2]
      errEnqueueTimeout rfl rfl rfl⟩

/-- Claim C2: when the submission made by `Write` succeeds, `Write` returns the
apply result of the committed entry, nil for a nil result and the error for an
error result, and in both cases it makes no call on any stream and no further
call on the stream manager: after the registration it only reads the clock,
encodes, submits and reads the future. -/
theorem Write_committed (c : Client) (env : Env) (input : Bytes)
    (stream stream' : WriteStream) (sid : StreamID) (bytes : Bytes)
    (hreg : env.addStream stream = (sid, stream'))
    (henc : env.marshal ⟨input, sid, env.now⟩ = (bytes, none))
    (hsub : (env.apply bytes clientTimeout).err = none) :
    ((env.apply bytes clientTimeout).response = .nil →
      (c.Write env input stream).val = .ret none) ∧
    (∀ e, (env.apply bytes clientTimeout).response = .error e →
      (c.Write env input stream).val = .ret (some e)) ∧
    (∀ s op, Event.streamCall s op ∉ (c.Write env input stream).trace) ∧
    (c.Write env input stream).trace =
      [.addStream stream, .timeNow, .marshal ⟨input, sid, env.now⟩,
        .raftApply bytes clientTimeout, .futureError, .futureResponse] := by
  rw [Write_run_committed c env input stream stream' sid bytes hreg henc hsub]
  refine ⟨?_, ?_, ?_, rfl⟩
  · intro h
    simp [h]
  · intro e h
    simp [h]
  · intro s op
    simp

/-- The theorem of claim C2 on an entry the state machine rejects. -/
theorem Write_committed_witness :
    envApplyFails.addStream ⟨7⟩ = (1, ⟨107⟩) ∧
    envApplyFails.marshal ⟨[1, 2], 1, envApplyFails.now⟩ = ([1, 2], none) ∧
    (envApplyFails.apply [1, 2] clientTimeout).err = none ∧
    ((envApplyFails.apply [1, 2] clientTimeout).response = .nil →
      (sampleClient.Write envApplyFails [1, 2] ⟨7⟩).val = .ret none) ∧
    (∀ e, (envApplyFails.apply [1, 2] clientTimeout).response = .error e →
      (sampleClient.Write envApplyFails [1, 2] ⟨7⟩).val = .ret (some e)) ∧
    (∀ s op, Event.streamCall s op ∉ (sampleClient.Write envApplyFails [1, 2] ⟨7⟩).trace) ∧
    (sampleClient.Write envApplyFails [1, 2] ⟨7⟩).trace =
      [.addStream ⟨7⟩, .timeNow, .marshal ⟨[1, 2], 1, envApplyFails.now⟩,
        .raftApply [1, 2] clientTimeout, .futureError, .futureResponse] :=
  ⟨rfl, rfl, rfl,
    Write_committed sampleClient envApplyFails [1, 2] ⟨7⟩ ⟨107⟩ 1 [1, 2] rfl rfl rfl⟩

/-- Claim C6, as stated, fails: a submission that fails with `errEnqueueTimeout`
and a committed entry whose apply result is `errEnqueueTimeout` make `Write`
return the very same value. -/
theorem Write_failure_kinds_counterexample :
    (envSubmitFails.apply [1, 2] clientTimeout).err = some errEnqueueTimeout ∧
    envApplyFails.apply [1, 2] clientTimeout = ⟨none, .error errEnqueueTimeout⟩ ∧
    (sampleClient.Write envSubmitFails [1, 2] ⟨7⟩).val =
      (sampleClient.Write envApplyFails [1, 2] ⟨7⟩).val := by
  decide

/-- Claim C6, amended: for every error `e`, `Write` returns `e` itself both when
the submission fails with `e` and when the submission succeeds with apply
result `e`, so the two returned values are equal; the two runs differ in the
registered stream, which the first closes and the second does not touch. -/
theorem Write_failure_kinds_same_value (c : Client) (env₁ env₂ : Env) (input : Bytes)
    (stream s₁ s₂ : WriteStream) (sid₁ sid₂ : StreamID) (b₁ b₂ : Bytes) (e : GoError)
    (hreg₁ : env₁.addStream stream = (sid₁, s₁))
    (henc₁ : env₁.marshal ⟨input, sid₁, env₁.now⟩ = (b₁, none))
    (hsub₁ : (env₁.apply b₁ clientTimeout).err = some e)
    (hreg₂ : env₂.addStream stream = (sid₂, s₂))
    (henc₂ : env₂.marshal ⟨input, sid₂, env₂.now⟩ = (b₂, none))
    (hsub₂ : env₂.apply b₂ clientTimeout = ⟨none, .error e⟩) :
    (c.Write env₁ input stream).val = .ret (some e) ∧
    (c.Write env₂ input stream).val = .ret (some e) ∧
    (c.Write env₁ input stream).val = (c.Write env₂ input stream).val ∧
    Event.streamCall s₁ .close ∈ (c.Write env₁ input stream).trace ∧
    (∀ s op, Event.streamCall s op ∉ (c.Write env₂ input stream).trace) := by
  have herr₂ : (env₂.apply b₂ clientTimeout).err = none := by rw [hsub₂]
  rw [Write_run_submit_error c env₁ input stream s₁ sid₁ b₁ e hreg₁ henc₁ hsub₁,
    Write_run_committed c env₂ input stream s₂ sid₂ b₂ hreg₂ henc₂ herr₂, hsub₂]
  refine ⟨rfl, rfl, rfl, ?_, ?_⟩
  · simp
  · intro s op
    simp

/-- The theorem of amended claim C6 on a timeout and on a rejected entry. -/
theorem Write_failure_kinds_same_value_witness :
    (sampleClient.Write envSubmitFails [1, 2] ⟨7⟩).val = .ret (some errEnqueueTimeout) ∧
    (sampleClient.Write envApplyFails [1, 2] ⟨7⟩).val = .ret (some errEnqueueTimeout) ∧
    (sampleClient.Write envSubmitFails [1, 2] ⟨7⟩).val =
      (sampleClient.Write envApplyFails [1, 2] ⟨7⟩).val ∧
    Event.streamCall ⟨107⟩ .close ∈ (sampleClient.Write envSubmitFails [1, 2] ⟨7⟩).trace ∧
    (∀ s op, Event.streamCall s op ∉ (sampleClient.Write envApplyFails [1, 2] ⟨7⟩).trace) :=
  Write_failure_kinds_same_value sampleClient envSubmitFails envApplyFails [1, 2] ⟨7⟩
    ⟨107⟩ ⟨107⟩ 1 1 [1, 2] [1, 2] errEnqueueTimeout rfl rfl rfl rfl rfl rfl

/-- Claim C7: when encoding succeeds, `Write` registers the caller's stream
exactly once, encodes exactly one entry, whose payload is the input and whose
stream identifier is the one registration returned, and makes exactly one
submission, of the bytes of that encoding with the timeout of 15 seconds,
whatever the outcome of the submission. -/
theorem Write_registers_and_submits_once (c : Client) (env : Env) (input : Bytes)
    (stream stream' : WriteStream) (sid : StreamID) (bytes : Bytes)
    (hreg : env.addStream stream = (sid, stream'))
    (henc : env.marshal ⟨input, sid, env.now⟩ = (bytes, none)) :
    (c.Write env input stream).trace.filter Event.isAddStream = [.addStream stream] ∧
    (c.Write env input stream).trace.filter Event.isMarshal =
      [.marshal ⟨input, sid, env.now⟩] ∧
    (c.Write env input stream).trace.filter Event.isApply =
      [.raftApply bytes clientTimeout] ∧
    clientTimeout = 15 * 1000000000 := by
  cases hsub : (env.apply bytes clientTimeout).err with
  | none =>
    rw [Write_run_committed c env input stream stream' sid bytes hreg henc hsub]
    simp [Event.isAddStream, Event.isMarshal, Event.isApply, clientTimeout, timeSecond]
  | some e =>
    rw [Write_run_submit_error c env input stream stream' sid bytes e hreg henc hsub]
    simp [Event.isAddStream, Event.isMarshal, Event.isApply, clientTimeout, timeSecond]

/-- The theorem of claim C7 on a submission that times out. -/
theorem Write_registers_and_submits_once_witness :
    envSubmitFails.addStream ⟨7⟩ = (1, ⟨107⟩) ∧
    envSubmitFails.marshal ⟨[1, 2], 1, envSubmitFails.now⟩ = ([1, 2], none) ∧
    (sampleClient.Write envSubmitFails [1, 2] ⟨7⟩).trace.filter Event.isAddStream =
      [.addStream ⟨7⟩] ∧
    (sampleClient.Write envSubmitFails [1, 2] ⟨7⟩).trace.filter Event.isMarshal =
      [.marshal ⟨[1, 2], 1, envSubmitFails.now⟩] ∧
    (sampleClient.Write envSubmitFails [1, 2] ⟨7⟩).trace.filter Event.isApply =
      [.raftApply [1, 2] clientTimeout] ∧
    clientTimeout = 15 * 1000000000 :=
  ⟨rfl, rfl,
    Write_registers_and_submits_once sampleClient envSubmitFails [1, 2] ⟨7⟩ ⟨107⟩ 1 [1, 2]
      rfl rfl⟩

/-- Claim C10: when encoding the entry fails with error `e`, `Write` returns
exactly `e` and makes no submission; the stream was registered before the
encoding, and the run makes no call on any stream afterwards: its calls are the
registration, the clock and the encoding, nothing else. -/
theorem Write_encode_failure (c : Client) (env : Env) (input : Bytes)
    (stream stream' : WriteStream) (sid : StreamID) (bytes : Bytes) (e : GoError)
    (hreg : env.addStream stream = (sid, stream'))
    (henc : env.marshal ⟨input, sid, env.now⟩ = (bytes, some e)) :
    (c.Write env input stream).val = .ret (some e) ∧
    (c.Write env input stream).trace.filter Event.isApply = [] ∧
    (∀ s op, Event.streamCall s op ∉ (c.Write env input stream).trace) ∧
    (c.Write env input stream).trace =
      [.addStream stream, .timeNow, .marshal ⟨input, sid, env.now⟩] := by
  rw [Write_run_encode_error c env input stream stream' sid bytes e hreg henc]
  refine ⟨rfl, ?_, ?_, rfl⟩
  · simp [Event.isApply]
  · intro s op
    simp

/-- The theorem of claim C10 on an encoder that refuses every entry. -/
theorem Write_encode_failure_witness :
    envEncodeFails.addStream ⟨7⟩ = (1, ⟨107⟩) ∧
    envEncodeFails.marshal ⟨[1, 2], 1, envEncodeFails.now⟩ = ([], some errTooLarge) ∧
    (sampleClient.Write envEncodeFails [1, 2] ⟨7⟩).val = .ret (some errTooLarge) ∧
    (sampleClient.Write envEncodeFails [1, 2] ⟨7⟩).trace.filter Event.isApply = [] ∧
    (∀ s op, Event.streamCall s op ∉ (sampleClient.Write envEncodeFails [1, 2] ⟨7⟩).trace) ∧
    (sampleClient.Write envEncodeFails [1, 2] ⟨7⟩).trace =
      [.addStream ⟨7⟩, .timeNow, .marshal ⟨[1, 2], 1, envEncodeFails.now⟩] :=
  ⟨rfl, rfl,
    Write_encode_failure sampleClient envEncodeFails [1, 2] ⟨7⟩ ⟨107⟩ 1 [] errTooLarge
      rfl rfl⟩

/-! ## The read path -/

/-- Claim C8: `Read` returns exactly what the state machine's query returns on
the same payload and the same stream, and that query is the only call it makes:
no registration, no encoding, no submission, no call on the stream. -/
theorem Read_forwards_query (c : Client) (env : Env) (input : Bytes) (stream : WriteStream) :
    (c.Read env input stream).val = .ret (env.query input stream) ∧
    (c.Read env input stream).trace = [.stateQuery input stream] ∧
    (c.Read env input stream).trace.filter Event.isAddStream = [] ∧
    (c.Read env input stream).trace.filter Event.isMarshal = [] ∧
    (c.Read env input stream).trace.filter Event.isApply = [] ∧
    (∀ s op, Event.streamCall s op ∉ (c.Read env input stream).trace) := by
  refine ⟨rfl, rfl, rfl, rfl, rfl, ?_⟩
  intro s op
  simp [Client.Read, bind, Eff.bind, call, pure, Eff.pure]

/-! ## Leader discovery -/

/-- Claim C5: `IsLeader` answers true exactly when the client's own transport
address is, as a string, the leader address the consensus engine reports, the
empty one included; asking the engine for the leader is the only call it makes,
so nothing is split or resolved. -/
theorem IsLeader_iff (c : Client) (env : Env) :
    ((c.IsLeader env).val = true ↔ env.leader = c.address) ∧
    (c.IsLeader env).trace = [.raftLeader] := by
  refine ⟨?_, rfl⟩
  simp [Client.IsLeader, bind, Eff.bind, call, pure, Eff.pure]

/-- Claim C4: when the consensus engine reports no leader, `Leader` returns the
empty string and resolves no host: asking the engine for the leader is the only
call it makes.  The result type of `Leader` is a string, so no error is
signalled. -/
theorem Leader_no_leader (c : Client) (env : Env) (hl : env.leader = "") :
    (c.Leader env).val = "" ∧
    (∀ host, Event.lookupHost host ∉ (c.Leader env).trace) ∧
    (c.Leader env).trace = [.raftLeader] := by
  rw [Leader_run_no_leader c env hl]
  refine ⟨rfl, ?_, rfl⟩
  intro host
  simp

/-- The theorem of claim C4 during an election. -/
theorem Leader_no_leader_witness :
    envElection.leader = "" ∧
    (twoNodeClient.Leader envElection).val = "" ∧
    (∀ host, Event.lookupHost host ∉ (twoNodeClient.Leader envElection).trace) ∧
    (twoNodeClient.Leader envElection).trace = [.raftLeader] :=
  ⟨rfl, Leader_no_leader twoNodeClient envElection rfl⟩

/-- Claim C3, as stated, fails: with the table `nodeA ↦ 8080`, the leader
`10.0.0.1:5678` and `nodeA` resolving to `10.0.0.2` and `10.0.0.1`, in that
order, an address of `nodeA` is the leader's host, yet `Leader` returns the
empty string. -/
theorem Leader_any_address_counterexample :
    envSecondAddress.leader ≠ "" ∧
    envSecondAddress.splitHostPort envSecondAddress.leader = ("10.0.0.1", "5678", none) ∧
    (envSecondAddress.rangeOrder sampleClient.ports).Perm sampleClient.ports ∧
    ("nodeA", 8080) ∈ sampleClient.ports ∧
    ResolvesAnyTo envSecondAddress "nodeA" "10.0.0.1" ∧
    (sampleClient.Leader envSecondAddress).val = "" := by
  refine ⟨by decide, rfl, List.Perm.refl _, by decide, ⟨rfl, by decide⟩, by decide⟩

/-- Claim C3, amended: for a known leader whose address splits into `ip` and a
port, if a table entry `(host, port)` resolves, without error, to a non-empty
list of addresses whose first one is `ip`, then `Leader` returns a non-empty
address, and it is `h:p` for a table entry `(h, p)` that resolves in that
way. -/
theorem Leader_first_address_match (c : Client) (env : Env) (ip lport : String)
    (host : String) (port : Int)
    (hl : env.leader ≠ "") (hs : env.splitHostPort env.leader = (ip, lport, none))
    (hperm : (env.rangeOrder c.ports).Perm c.ports)
    (hmem : (host, port) ∈ c.ports) (hres : ResolvesFirstTo env host ip) :
    (c.Leader env).val ≠ "" ∧
    ∃ h p, (h, p) ∈ c.ports ∧ ResolvesFirstTo env h ip ∧
      (c.Leader env).val = sprintfHostPort h p := by
  rw [Leader_val_of_split c env ip lport hl hs]
  have hne : (leaderScan env ip (env.rangeOrder c.ports)).val ≠ "" := by
    intro h0
    exact (leaderScan_empty_iff env ip _).1 h0 (host, port) (hperm.mem_iff.2 hmem) hres
  obtain ⟨h, p, hm, hr, heq⟩ := leaderScan_result env ip _ hne
  exact ⟨hne, h, p, hperm.mem_iff.1 hm, hr, heq⟩

/-- The theorem of amended claim C3 on the table `nodeA ↦ 8080` with `nodeA`
resolving to the leader's host: the answer is `nodeA:8080`. -/
theorem Leader_first_address_match_witness :
    sampleEnv.leader ≠ "" ∧
    sampleEnv.splitHostPort sampleEnv.leader = ("10.0.0.1", "5678", none) ∧
    (sampleEnv.rangeOrder sampleClient.ports).Perm sampleClient.ports ∧
    ("nodeA", 8080) ∈ sampleClient.ports ∧
    ResolvesFirstTo sampleEnv "nodeA" "10.0.0.1" ∧
    (sampleClient.Leader sampleEnv).val = "nodeA:8080" ∧
    ((sampleClient.Leader sampleEnv).val ≠ "" ∧
      ∃ h p, (h, p) ∈ sampleClient.ports ∧ ResolvesFirstTo sampleEnv h "10.0.0.1" ∧
        (sampleClient.Leader sampleEnv).val = sprintfHostPort h p) :=
  ⟨by decide, rfl, List.Perm.refl _, by decide, ⟨rfl, [], rfl⟩, by decide,
    Leader_first_address_match sampleClient sampleEnv "10.0.0.1" "5678" "nodeA" 8080
      (by decide) rfl (List.Perm.refl _) (by decide) ⟨rfl, [], rfl⟩⟩

/-- Claim C9: for a non-empty leader address that splits into `ip` and a port,
and for any order in which the table is ranged over, `Leader` returns a
non-empty string exactly when some table entry resolves, without error, to a
non-empty list whose first address is `ip`; a non-empty result is `h:p`, the
port in decimal, for such an entry `(h, p)`; and an entry that is the first of
its kind in the order visited is the one answered, whatever entries that fail
to resolve, resolve to nothing or resolve elsewhere come before it. -/
theorem Leader_nonempty_iff (c : Client) (env : Env) (ip lport : String)
    (hl : env.leader ≠ "") (hs : env.splitHostPort env.leader = (ip, lport, none))
    (hperm : (env.rangeOrder c.ports).Perm c.ports) :
    ((c.Leader env).val ≠ "" ↔
      ∃ h p, (h, p) ∈ c.ports ∧ ResolvesFirstTo env h ip) ∧
    ((c.Leader env).val ≠ "" →
      ∃ h p, (h, p) ∈ c.ports ∧ ResolvesFirstTo env h ip ∧
        (c.Leader env).val = h ++ ":" ++ toString p) ∧
    (∀ pre h p post, env.rangeOrder c.ports = pre ++ (h, p) :: post →
      (∀ x ∈ pre, ¬ ResolvesFirstTo env x.1 ip) → ResolvesFirstTo env h ip →
      (c.Leader env).val = h ++ ":" ++ toString p) := by
  rw [Leader_val_of_split c env ip lport hl hs]
  refine ⟨⟨?_, ?_⟩, ?_, ?_⟩
  · intro hne
    obtain ⟨h, p, hm, hr, _⟩ := leaderScan_result env ip _ hne
    exact ⟨h, p, hperm.mem_iff.1 hm, hr⟩
  · rintro ⟨h, p, hm, hr⟩ h0
    exact (leaderScan_empty_iff env ip _).1 h0 (h, p) (hperm.mem_iff.2 hm) hr
  · intro hne
    obtain ⟨h, p, hm, hr, heq⟩ := leaderScan_result env ip _ hne
    exact ⟨h, p, hperm.mem_iff.1 hm, hr, heq⟩
  · intro pre h p post hord hpre hr
    rw [hord]
    exact leaderScan_first_match env ip pre post h p hpre hr

/-- The theorem of claim C9 on the table `nodeA ↦ 8080`, `nodeB ↦ 9090` ranged
over from `nodeB`, which does not resolve: the answer is `nodeA:8080`. -/
theorem Leader_nonempty_iff_witness :
    envReversed.leader ≠ "" ∧
    envReversed.splitHostPort envReversed.leader = ("10.0.0.1", "5678", none) ∧
    (envReversed.rangeOrder twoNodeClient.ports).Perm twoNodeClient.ports ∧
    envReversed.rangeOrder twoNodeClient.ports = [("nodeB", 9090), ("nodeA", 8080)] ∧
    (envReversed.lookupHost "nodeB").2 ≠ none ∧
    (twoNodeClient.Leader envReversed).val = "nodeA:8080" ∧
    (((twoNodeClient.Leader envReversed).val ≠ "" ↔
      ∃ h p, (h, p) ∈ twoNodeClient.ports ∧ ResolvesFirstTo envReversed h "10.0.0.1") ∧
    ((twoNodeClient.Leader envReversed).val ≠ "" →
      ∃ h p, (h, p) ∈ twoNodeClient.ports ∧ ResolvesFirstTo envReversed h "10.0.0.1" ∧
        (twoNodeClient.Leader envReversed).val = h ++ ":" ++ toString p) ∧
    (∀ pre h p post, envReversed.rangeOrder twoNodeClient.ports = pre ++ (h, p) :: post →
      (∀ x ∈ pre, ¬ ResolvesFirstTo envReversed x.1 "10.0.0.1") →
      ResolvesFirstTo envReversed h "10.0.0.1" →
      (twoNodeClient.Leader envReversed).val = h ++ ":" ++ toString p)) :=
  ⟨by decide, rfl, List.reverse_perm _, rfl, by decide, by decide,
    Leader_nonempty_iff twoNodeClient envReversed "10.0.0.1" "5678" (by decide) rfl
      (List.reverse_perm _)⟩

end Raft
